import Mathlib

/-!
Verification development for the IdiomsEveryday quiz-delivery bot.

The repository has two Python entry points:
  * `generate.py` — a Telegram command bot: `/start` loads a quiz file,
    enriches it through the Gemini endpoint, and sends one header message
    plus one quiz poll per item.
  * `q&a.py` — a console flow that loads a quiz file, enriches it, writes an
    `enriched_` copy, and sends plain polls; plus a chat-fallback handler
    with a one-turn conversational memory.

This file shallowly embeds the pure behaviour of those scripts: JSON values
and parsing (modelling `json.loads` restricted to integer numerals and the
simple escapes the stores use), Python string `find`/`rfind`/slice
semantics, the per-item rendering and the event traces emitted by the
delivery loops, the load/normalise logic, the entry-point control flow, and
the conversational-memory state transition.  Network transport outcomes are
parameters (`Except String String`): an `ok` carries the raw reply text,
an `error` models a non-success status or network failure.
-/

namespace PyModel

/-- JSON values as produced by `json.loads` (numerals restricted to
integers; the stores and replies relevant to the claims use nothing
beyond that). -/
inductive Json where
  | null : Json
  | bool : Bool → Json
  | num : Int → Json
  | str : String → Json
  | arr : List Json → Json
  | obj : List (String × Json) → Json

def isWs (c : Char) : Bool := c = ' ' || c = '\n' || c = '\t' || c = '\r'

def skipWs : List Char → List Char
  | [] => []
  | c :: cs => if isWs c then skipWs cs else c :: cs

/-- Simple escape resolution inside JSON string literals (`\n`, `\t`, `\r`;
any other escaped character stands for itself, which covers `\"` and
`\\`). -/
def unescChar (e : Char) : Char :=
  if e = 'n' then '\n' else if e = 't' then '\t' else if e = 'r' then '\r' else e

/-- Parse the body of a JSON string literal, the opening quote already
consumed; returns the decoded characters and the remaining input. -/
def parseStringBody : List Char → Option (List Char × List Char)
  | [] => none
  | '\"' :: cs => some ([], cs)
  | '\\' :: e :: cs =>
      match parseStringBody cs with
      | some (s, r) => some (unescChar e :: s, r)
      | none => none
  | ['\\'] => none
  | c :: cs =>
      match parseStringBody cs with
      | some (s, r) => some (c :: s, r)
      | none => none

def digitVal (c : Char) : Nat := c.toNat - '0'.toNat

def takeDigits : List Char → (List Char × List Char)
  | [] => ([], [])
  | c :: cs =>
      if c.isDigit then
        let p := takeDigits cs
        (c :: p.1, p.2)
      else ([], c :: cs)

def digitsToNat (ds : List Char) : Nat := ds.foldl (fun acc c => acc * 10 + digitVal c) 0

def dropLit : List Char → List Char → Option (List Char)
  | [], l => some l
  | _ :: _, [] => none
  | c :: cs, x :: xs => if x = c then dropLit cs xs else none

mutual

/-- Fuel-indexed JSON value parser (the fuel only has to dominate the
nesting depth; `json_loads` supplies input length plus two). -/
def parseVal : Nat → List Char → Option (Json × List Char)
  | 0, _ => none
  | fuel + 1, l =>
    match skipWs l with
    | [] => none
    | c :: cs =>
      if c = 'n' then (dropLit ['u', 'l', 'l'] cs).map (fun r => (Json.null, r))
      else if c = 't' then (dropLit ['r', 'u', 'e'] cs).map (fun r => (Json.bool true, r))
      else if c = 'f' then (dropLit ['a', 'l', 's', 'e'] cs).map (fun r => (Json.bool false, r))
      else if c = '\"' then
        match parseStringBody cs with
        | some (s, r) => some (Json.str (String.mk s), r)
        | none => none
      else if c = '[' then
        match skipWs cs with
        | ']' :: r => some (Json.arr [], r)
        | rest =>
          match parseItems fuel rest with
          | some (xs, r) => some (Json.arr xs, r)
          | none => none
      else if c = '\x7b' then
        match skipWs cs with
        | '\x7d' :: r => some (Json.obj [], r)
        | rest =>
          match parseMembers fuel rest with
          | some (kvs, r) => some (Json.obj kvs, r)
          | none => none
      else if c = '-' then
        match takeDigits cs with
        | ([], _) => none
        | (ds, r) => some (Json.num (-(digitsToNat ds : Int)), r)
      else if c.isDigit then
        match takeDigits (c :: cs) with
        | (ds, r) => some (Json.num (digitsToNat ds), r)
      else none

/-- Parse the comma-separated items of a nonempty array, up to and
including the closing bracket. -/
def parseItems : Nat → List Char → Option (List Json × List Char)
  | 0, _ => none
  | fuel + 1, l =>
    match parseVal fuel l with
    | none => none
    | some (v, r) =>
      match skipWs r with
      | ',' :: r2 =>
        match parseItems fuel r2 with
        | some (xs, r3) => some (v :: xs, r3)
        | none => none
      | ']' :: r2 => some ([v], r2)
      | _ => none

/-- Parse the members of a nonempty object, up to and including the
closing brace. -/
def parseMembers : Nat → List Char → Option (List (String × Json) × List Char)
  | 0, _ => none
  | fuel + 1, l =>
    match skipWs l with
    | '\"' :: cs =>
      match parseStringBody cs with
      | none => none
      | some (k, r) =>
        match skipWs r with
        | ':' :: r2 =>
          match parseVal fuel r2 with
          | none => none
          | some (v, r3) =>
            match skipWs r3 with
            | ',' :: r4 =>
              match parseMembers fuel r4 with
              | some (kvs, r5) => some ((String.mk k, v) :: kvs, r5)
              | none => none
            | '\x7d' :: r4 => some ([(String.mk k, v)], r4)
            | _ => none
        | _ => none
    | _ => none

end

/-- `json.loads`: parse a complete JSON document, requiring the whole
input to be consumed (up to trailing whitespace); `none` models a raised
`JSONDecodeError`. -/
def json_loads (s : String) : Option Json :=
  match parseVal (s.length + 2) s.data with
  | some (j, r) => if skipWs r = [] then some j else none
  | none => none

/-- Index of the first occurrence of a character, if any. -/
def findIdx (c : Char) : List Char → Option Nat
  | [] => none
  | x :: xs => if x = c then some 0 else (findIdx c xs).map (· + 1)

/-- Python `str.find`: first index of the character, `-1` if absent. -/
def pyFind (s : String) (c : Char) : Int :=
  match findIdx c s.data with
  | some i => (i : Int)
  | none => -1

/-- Python `str.rfind`: last index of the character, `-1` if absent. -/
def pyRFind (s : String) (c : Char) : Int :=
  match findIdx c s.data.reverse with
  | some i => (s.data.length : Int) - 1 - (i : Int)
  | none => -1

/-- Python slice lower-bound adjustment: negative indices count from the
end, then both are clamped into the string. -/
def sliceLo (s : String) (a : Int) : Int :=
  if a < 0 then max (a + s.data.length) 0 else min a s.data.length

/-- Python slice upper-bound adjustment. -/
def sliceHi (s : String) (b : Int) : Int :=
  if b < 0 then max (b + s.data.length) 0 else min b s.data.length

/-- Python slice `s[a:b]` with negative-index adjustment and clamping. -/
def pySlice (s : String) (a b : Int) : String :=
  String.mk ((s.data.take (sliceHi s b).toNat).drop (sliceLo s a).toNat)

/-- The substring both scripts cut out of a Gemini reply:
`reply[reply.find("[") : reply.rfind("]") + 1]`. -/
def extract_slice (reply : String) : String :=
  pySlice reply (pyFind reply '[') (pyRFind reply ']' + 1)

/-- Reply-text extraction as done in `ask_gemini` (generate.py) and
`enrich_questions_with_explanations` (q&a.py): slice from the first `[`
to the last `]` and parse; `none` models the caught parse exception. -/
def extract_json (reply : String) : Option Json :=
  json_loads (extract_slice reply)

/-- Python truthiness of a parsed JSON value, as used by the
`if not quiz_data` / `if not enriched` / `if not questions` guards. -/
def Json.truthy : Json → Bool
  | Json.null => false
  | Json.bool b => b
  | Json.num n => n != 0
  | Json.str s => s != ""
  | Json.arr xs => !xs.isEmpty
  | Json.obj kvs => !kvs.isEmpty

/-- A quiz item as both senders read it: the string-valued fields of one
content-store object (spec external-interface format: `question`,
`a`..`d`, `answer`, optional `explanation`); `none` models an absent
key for the Python `dict.get` defaults. -/
structure Q where
  question : Option String
  a : Option String
  b : Option String
  c : Option String
  d : Option String
  answer : Option String
  explanation : Option String
deriving DecidableEq

/-- Read a string field of a JSON object (the senders only ever consume
string-valued fields of conforming store objects). -/
def getStrField (kvs : List (String × Json)) (k : String) : Option String :=
  match kvs.lookup k with
  | some (Json.str s) => some s
  | _ => none

def Q.ofJson : Json → Q
  | Json.obj kvs =>
      ⟨getStrField kvs "question", getStrField kvs "a", getStrField kvs "b",
       getStrField kvs "c", getStrField kvs "d", getStrField kvs "answer",
       getStrField kvs "explanation"⟩
  | _ => ⟨none, none, none, none, none, none, none⟩

/-- The iteration both delivery loops perform over the parsed batch,
decoding each object to the fields they read. -/
def Json.toQuizList : Json → List Q
  | Json.arr xs => xs.map Q.ofJson
  | _ => []

/-- Whitespace for Python `str.strip` (the default strip set restricted
to the ASCII whitespace that can occur in the stores). -/
def isPyWs (c : Char) : Bool :=
  c = ' ' || c = '\n' || c = '\t' || c = '\r' || c = '\x0b' || c = '\x0c'

def dropWsLeft : List Char → List Char
  | [] => []
  | c :: cs => if isPyWs c then dropWsLeft cs else c :: cs

/-- Python `str.strip()`: drop whitespace from both ends. -/
def pyStrip (s : String) : String :=
  String.mk ((dropWsLeft ((dropWsLeft s.data).reverse)).reverse)

/-- Python `str.upper()` (ASCII range; the answer letters are ASCII). -/
def pyUpper (s : String) : String := String.mk (s.data.map Char.toUpper)

/-- Python `str.lower()` (ASCII range; the store names are ASCII). -/
def pyLower (s : String) : String := String.mk (s.data.map Char.toLower)

/-- Python `str.endswith`. -/
def pyEndsWith (s p : String) : Bool := p.data.isSuffixOf s.data

/-- `options = [q.get(k, "") for k in ("a", "b", "c", "d")]`. -/
def options_of (q : Q) : List String :=
  [q.a.getD "", q.b.getD "", q.c.getD "", q.d.getD ""]

/-- The `letter_to_index` dict lookup with default 0:
`{"A": 0, "B": 1, "C": 2, "D": 3}.get(correct_letter, 0)`. -/
def letter_to_index (s : String) : Nat :=
  if s = "A" then 0
  else if s = "B" then 1
  else if s = "C" then 2
  else if s = "D" then 3
  else 0

/-- `correct_index` as computed in `send_polls` (generate.py):
`q.get("answer", "").strip().upper()` fed through the letter map. -/
def correct_index (q : Q) : Nat :=
  letter_to_index (pyUpper (pyStrip (q.answer.getD "")))

/-- The MarkdownV2 reserved set of `telegram.helpers.escape_markdown`
(version 2): the backslash plus `_*[]()~` backtick `>#+-=|{}.!`. -/
def reserved_v2 : List Char :=
  ['\\', '_', '*', '[', ']', '(', ')', '~', '\x60', '>', '#', '+', '-', '=',
   '|', '\x7b', '\x7d', '.', '!']

/-- `telegram.helpers.escape_markdown(text, version=2)`: every reserved
character is prefixed with a backslash, all others pass through. -/
def escape_markdown (s : String) : String :=
  String.mk (s.data.flatMap (fun c => if c ∈ reserved_v2 then ['\\', c] else [c]))

/-- `bold_question = f"*{escape_markdown(raw_question, version=2)}*"`. -/
def bold_question (q : Q) : String :=
  "*" ++ escape_markdown (q.question.getD "") ++ "*"

/-- Observable actions of the pipelines.  `pinMessage` and `sleep` are
transport actions the bots could issue; the traces below show whether
they ever do.  `log` is a console print, not user-visible chat output. -/
inductive Event where
  | sendMessage (chat_id : Int) (text : String)
  | sendPoll (chat_id : Int) (question : String) (options : List String)
      (ptype : Option String) (correct : Option Nat) (explanation : Option String)
      (is_anonymous : Bool) (allows_multiple : Option Bool)
  | replyText (text : String)
  | pinMessage (chat_id : Int)
  | sleep (tenths : Nat)
  | log (text : String)
  | writeFile (name : String)
deriving DecidableEq

def Event.isLog : Event → Bool
  | Event.log _ => true
  | Event.sendMessage _ _ => false
  | Event.sendPoll _ _ _ _ _ _ _ _ => false
  | Event.replyText _ => false
  | Event.pinMessage _ => false
  | Event.sleep _ => false
  | Event.writeFile _ => false

def Event.isPin : Event → Bool
  | Event.pinMessage _ => true
  | Event.log _ => false
  | Event.sendMessage _ _ => false
  | Event.sendPoll _ _ _ _ _ _ _ _ => false
  | Event.replyText _ => false
  | Event.sleep _ => false
  | Event.writeFile _ => false

def Event.isSleep : Event → Bool
  | Event.sleep _ => true
  | Event.log _ => false
  | Event.sendMessage _ _ => false
  | Event.sendPoll _ _ _ _ _ _ _ _ => false
  | Event.replyText _ => false
  | Event.pinMessage _ => false
  | Event.writeFile _ => false

def Event.isPoll : Event → Bool
  | Event.sendPoll _ _ _ _ _ _ _ _ => true
  | Event.log _ => false
  | Event.sendMessage _ _ => false
  | Event.replyText _ => false
  | Event.pinMessage _ => false
  | Event.sleep _ => false
  | Event.writeFile _ => false

/-- The poll `send_polls` (generate.py) sends for one item: quiz type,
escaped bold question, raw options, resolved correct index, the
explanation if nonempty (`explanation if explanation else None`),
`is_anonymous=False`, no multiple-answers argument. -/
def gen_quiz_poll (chat_id : Int) (q : Q) : Event :=
  Event.sendPoll chat_id (bold_question q) (options_of q) (some "quiz")
    (some (correct_index q))
    (if (q.explanation.getD "") = "" then none else some (q.explanation.getD ""))
    false none

/-- The loop body of `send_polls` (generate.py) over
`enumerate(quiz_data, start=1)`: header message "Question no. i", two
console prints, then the quiz poll.  No pin and no sleep occur in the
source. -/
def send_polls_aux (chat_id : Int) : Nat → List Q → List Event
  | _, [] => []
  | i, q :: rest =>
      Event.sendMessage chat_id ("Question no. " ++ toString i) ::
      Event.log (bold_question q) ::
      Event.log (q.explanation.getD "") ::
      gen_quiz_poll chat_id q ::
      send_polls_aux chat_id (i + 1) rest

def send_polls (chat_id : Int) (quiz_data : List Q) : List Event :=
  send_polls_aux chat_id 1 quiz_data

/-- The poll `send_polls_from_json` (q&a.py) sends for one item: raw
(unescaped) question, raw options, no type argument, no correct index,
no attached explanation, `is_anonymous=False`,
`allows_multiple_answers=False`. -/
def qa_poll (chat_id : Int) (q : Q) : Event :=
  Event.sendPoll chat_id (q.question.getD "") (options_of q) none none none
    false (some false)

/-- The loop of `send_polls_from_json` (q&a.py): the poll, then a
follow-up text message carrying the explanation when it is nonempty. -/
def send_polls_from_json (chat_id : Int) : List Q → List Event
  | [] => []
  | q :: rest =>
      qa_poll chat_id q ::
      (if (q.explanation.getD "") = "" then []
       else [Event.sendMessage chat_id ("📘 Explanation: " ++ q.explanation.getD "")]) ++
      send_polls_from_json chat_id rest

def DEFAULT_FILENAME : String := "majorship.json"

/-- The name `load_quiz` (generate.py) actually opens:
`filename.strip().lower()` — no suffix is appended. -/
def gen_normalize (filename : String) : String := pyLower (pyStrip filename)

/-- `load_quiz` (generate.py).  `fs` models the filesystem as a map from
names to file contents.  Any failure (missing file or parse error) is
caught, printed, and turned into the empty list. -/
def load_quiz (fs : String → Option String) (filename : String) :
    Json × List String :=
  match fs (gen_normalize filename) with
  | none => (Json.arr [], ["❌ Failed to load quiz"])
  | some content =>
    match json_loads content with
    | none => (Json.arr [], ["❌ Failed to load quiz"])
    | some j => (j, [])

/-- The name `load_questions_file` (q&a.py) opens: trim, lowercase, and
append ".json" when missing. -/
def qa_normalize (filename : String) : String :=
  let cleaned := pyLower (pyStrip filename)
  if pyEndsWith cleaned ".json" then cleaned else cleaned ++ ".json"

/-- `load_questions_file` (q&a.py): returns `(parsed, cleaned name)` on
success and `(None, cleaned name)` plus a printed diagnostic on any
failure. -/
def load_questions_file (fs : String → Option String) (filename : String) :
    Option Json × String × List String :=
  let cleaned := qa_normalize filename
  match fs cleaned with
  | none => (none, cleaned, ["❌ Error loading file " ++ cleaned])
  | some content =>
    match json_loads content with
    | none => (none, cleaned, ["❌ Error loading file " ++ cleaned])
    | some j => (some j, cleaned, [])

/-- `ask_gemini` (generate.py) as a function of the transport outcome:
an error (non-success status or network failure) or a raw reply text.
On a reply, extraction and parsing happen inside the same `try`, so a
parse failure is also caught and printed, yielding `None`. -/
def ask_gemini_gen (resp : Except String String) : Option Json × List String :=
  match resp with
  | Except.error e => (none, ["Gemini Error: " ++ e])
  | Except.ok reply =>
    match extract_json reply with
    | some j => (some j, [])
    | none => (none, ["Gemini Error: parse failure"])

/-- `start_command` (generate.py): progress notice, load, abort with a
notice when the loaded value is falsy, enrich, abort with a notice when
the enrichment result is falsy, otherwise deliver and confirm. -/
def start_command (chat_id : Int) (fs : String → Option String)
    (gemini : Except String String) : List Event :=
  Event.replyText "⏳ Preparing your quiz..." ::
  (let p := load_quiz fs DEFAULT_FILENAME
   p.2.map Event.log ++
   (if !p.1.truthy then [Event.replyText "❌ Failed to load quiz."]
    else
      let g := ask_gemini_gen gemini
      g.2.map Event.log ++
      match g.1 with
      | none => [Event.replyText "❌ Gemini failed to enrich the quiz."]
      | some j =>
        if !j.truthy then [Event.replyText "❌ Gemini failed to enrich the quiz."]
        else send_polls chat_id j.toQuizList ++ [Event.replyText "🎉 Quiz sent!"]))

/-- The process-wide `chat_memory` dict of q&a.py, keyed by
`(chat_id, user_id)`. -/
def Memory := Int × Int → Option (String × String)

def emptyMemory : Memory := fun _ => none

def memInsert (m : Memory) (k : Int × Int) (v : String × String) : Memory :=
  fun k2 => if k2 = k then some v else m k2

/-- `ask_gemini` (q&a.py): returns the new memory, the text handed back
to the caller, and console logs.  On success the `(prompt, reply)` pair
overwrites the entry for the key; on failure the memory is untouched and
the returned text is the formatted error message. -/
def ask_gemini_qa (mem : Memory) (chat_id user_id : Int) (prompt : String)
    (resp : Except String String) : Memory × String × List String :=
  match resp with
  | Except.ok reply => (memInsert mem (chat_id, user_id) (prompt, reply), reply, [])
  | Except.error e => (mem, "⚠️ Gemini Error: " ++ e, ["Gemini API error: " ++ e])

mutual

/-- Serialization of a JSON value.  Abstracts `json.dumps(questions,
indent=2)` up to layout (compact separators instead of the indented
form); no claim depends on the serialized text itself. -/
def Json.dumps : Json → String
  | Json.null => "null"
  | Json.bool true => "true"
  | Json.bool false => "false"
  | Json.num n => toString n
  | Json.str s => "\"" ++ s ++ "\""
  | Json.arr xs => "[" ++ Json.dumpsList xs ++ "]"
  | Json.obj kvs => "\x7b" ++ Json.dumpsMembers kvs ++ "\x7d"

def Json.dumpsList : List Json → String
  | [] => ""
  | [x] => Json.dumps x
  | x :: xs => Json.dumps x ++ ", " ++ Json.dumpsList xs

def Json.dumpsMembers : List (String × Json) → String
  | [] => ""
  | [kv] => "\"" ++ kv.1 ++ "\": " ++ Json.dumps kv.2
  | kv :: kvs => "\"" ++ kv.1 ++ "\": " ++ Json.dumps kv.2 ++ ", " ++ Json.dumpsMembers kvs

end

/-- `build_explanation_prompt` (q&a.py). -/
def build_explanation_prompt (questions : Json) : String :=
  "Please add a short \x27explanation\x27 field to each question object " ++
  "in the JSON array below. Respond with valid JSON only:\n\n" ++ questions.dumps

/-- `enrich_questions_with_explanations` (q&a.py): one `ask_gemini` call
with the fixed key `(-1, 0)`, then extraction from whatever text came
back (on transport failure that text is the formatted error message). -/
def enrich_questions_with_explanations (mem : Memory) (questions : Json)
    (resp : Except String String) : Memory × Option Json × List String :=
  let prompt := build_explanation_prompt questions
  let r := ask_gemini_qa mem (-1) 0 prompt resp
  match extract_json r.2.1 with
  | some j => (r.1, some j, r.2.2)
  | none => (r.1, none, r.2.2 ++ ["❌ Failed to parse Gemini response"])

/-- `main_quiz_flow` (q&a.py): load, abort when falsy, enrich, abort
when falsy, else write the `enriched_` copy, deliver, and confirm;
threads the conversational memory through the enrichment call. -/
def main_quiz_flow (mem : Memory) (fs : String → Option String) (fname : String)
    (gemini : Except String String) (chat_id : Int) : Memory × List Event :=
  let l := load_questions_file fs fname
  match l.1 with
  | none => (mem, l.2.2.map Event.log ++ [Event.log "No valid questions found. Exiting."])
  | some j =>
    if !j.truthy then
      (mem, l.2.2.map Event.log ++ [Event.log "No valid questions found. Exiting."])
    else
      let e := enrich_questions_with_explanations mem j gemini
      match e.2.1 with
      | none => (e.1, e.2.2.map Event.log ++ [Event.log "Enrichment failed. Exiting."])
      | some enriched =>
        if !enriched.truthy then
          (e.1, e.2.2.map Event.log ++ [Event.log "Enrichment failed. Exiting."])
        else
          (e.1, e.2.2.map Event.log ++
            [Event.writeFile ("enriched_" ++ l.2.1),
             Event.log ("✅ Saved enriched JSON to enriched_" ++ l.2.1)] ++
            send_polls_from_json chat_id enriched.toQuizList ++
            [Event.log "🎉 All polls sent!"])

/-- `handle_message` (q&a.py), past the mention gate: one `ask_gemini`
call keyed by the real chat and user ids, replying with the returned
text. -/
def handle_message (mem : Memory) (chat_id user_id : Int) (text : String)
    (resp : Except String String) : Memory × List Event :=
  let r := ask_gemini_qa mem chat_id user_id text resp
  (r.1, r.2.2.map Event.log ++ [Event.replyText r.2.1])

end PyModel

open PyModel

set_option maxRecDepth 16384

/-! Concrete inputs used by witnesses and counterexamples. -/

def sampleQ : Q :=
  ⟨some "Capital of France?", some "Paris", some "Rome", some "Lima", some "Oslo",
   some "A", some "It is Paris."⟩

def sampleB : Q :=
  ⟨some "Q", some "o1", some "o2", some "o3", some "o4", some " b ", none⟩

def sampleDotQ : Q :=
  ⟨some "a.b", some "o1", some "o2", some "o3", some "o4", some "A", none⟩

def longExpl : String := String.mk (List.replicate 300 'x')

def sampleLongQ : Q :=
  ⟨some "Q", some "1", some "2", some "3", some "4", some "A", some longExpl⟩

def storeOneItem : String :=
  "[\x7b\"question\": \"Q1\", \"answer\": \"a\", \"explanation\": \"E\"\x7d]"

def fsQa : String → Option String :=
  fun n => if n = "quiz.json" then some storeOneItem else none

def fsGen : String → Option String :=
  fun n => if n = "majorship.json" then some storeOneItem else none

def replyOneItem : String :=
  "ok [\x7b\"question\": \"Q1\", \"answer\": \"a\", \"explanation\": \"E\"\x7d] done"

/-- C2: the resolved correct-option index is one of 0..3, equals the
position of the (whitespace-trimmed, case-folded) answer letter under
A→0, B→1, C→2, D→3, and is 0 when the answer field is absent or outside
A–D. -/
theorem C2_correct_option_index (q : Q) :
    correct_index q ∈ ({0, 1, 2, 3} : Set Nat) ∧
    (pyUpper (pyStrip (q.answer.getD "")) = "A" → correct_index q = 0) ∧
    (pyUpper (pyStrip (q.answer.getD "")) = "B" → correct_index q = 1) ∧
    (pyUpper (pyStrip (q.answer.getD "")) = "C" → correct_index q = 2) ∧
    (pyUpper (pyStrip (q.answer.getD "")) = "D" → correct_index q = 3) ∧
    (q.answer = none → correct_index q = 0) ∧
    (pyUpper (pyStrip (q.answer.getD "")) ∉ (["A", "B", "C", "D"] : List String) →
      correct_index q = 0) := by
  refine ⟨?_, ?_, ?_, ?_, ?_, ?_, ?_⟩
  · unfold correct_index letter_to_index
    split_ifs <;> simp
  · intro h; simp [correct_index, letter_to_index, h]
  · intro h; simp [correct_index, letter_to_index, h]
  · intro h; simp [correct_index, letter_to_index, h]
  · intro h; simp [correct_index, letter_to_index, h]
  · intro h; unfold correct_index; rw [h]; decide
  · intro h
    unfold correct_index letter_to_index
    simp only [List.mem_cons, List.not_mem_nil, or_false] at h
    push_neg at h
    simp [h.1, h.2.1, h.2.2.1, h.2.2.2]

/-- Witness for C2 at the concrete answer `" b "`. -/
theorem C2_correct_option_index_witness : correct_index sampleB = 1 :=
  (C2_correct_option_index sampleB).2.2.1 (by decide)

/-- C6: the conversational memory holds, per key, exactly the most
recent successfully completed (prompt, reply) pair: a success stores it,
a second success replaces it, a failure changes nothing, other keys are
untouched, and a present entry is never deleted. -/
theorem C6_memory_last_turn (mem : Memory) (c u : Int) (P R P2 R2 e : String) :
    ((ask_gemini_qa mem c u P (Except.ok R)).1 (c, u) = some (P, R)) ∧
    ((ask_gemini_qa (ask_gemini_qa mem c u P (Except.ok R)).1 c u P2
        (Except.ok R2)).1 (c, u) = some (P2, R2)) ∧
    ((ask_gemini_qa mem c u P (Except.error e)).1 = mem) ∧
    (∀ k : Int × Int, k ≠ (c, u) →
      (ask_gemini_qa mem c u P (Except.ok R)).1 k = mem k) ∧
    (∀ k : Int × Int, ∀ v, mem k = some v →
      (ask_gemini_qa mem c u P (Except.ok R)).1 k ≠ none) := by
  refine ⟨by simp [ask_gemini_qa, memInsert], by simp [ask_gemini_qa, memInsert],
    rfl, ?_, ?_⟩
  · intro k hk; simp [ask_gemini_qa, memInsert, hk]
  · intro k v hv
    simp only [ask_gemini_qa, memInsert]
    split <;> simp [hv]

/-- Witness for C6 at the spec's concrete key (7, 42). -/
theorem C6_memory_last_turn_witness :
    (ask_gemini_qa emptyMemory 7 42 "P1" (Except.ok "R1")).1 (0, 0) = emptyMemory (0, 0) :=
  (C6_memory_last_turn emptyMemory 7 42 "P1" "R1" "P2" "R2" "err").2.2.2.1 (0, 0) (by decide)

/-- C5 counterexample: one run of the q&a batch pipeline with a
successful transport reply writes the conversational-memory entry
(-1, 0), so the map afterwards differs from the map before. -/
theorem C5_counterexample :
    (main_quiz_flow emptyMemory fsQa "quiz" (Except.ok replyOneItem) 5).1 (-1, 0)
      ≠ emptyMemory (-1, 0) := by decide

/-- Helper: a batch-enrichment call over a failed transport leaves the
memory unchanged. -/
lemma enrich_error_mem (mem : Memory) (questions : Json) (e : String) :
    (enrich_questions_with_explanations mem questions (Except.error e)).1 = mem := by
  unfold enrich_questions_with_explanations ask_gemini_qa
  cases h : extract_json ("⚠️ Gemini Error: " ++ e) <;> simp [h]

/-- C5 amended: the q&a batch pipeline reads and writes the memory only
through its single chat-client call with the fixed key (-1, 0): a
successful call overwrites exactly that entry with the prompt/reply
pair, every other key is unchanged, and a transport failure leaves the
whole map unchanged (in particular a whole pipeline run on a failed
transport changes nothing). -/
theorem C5_batch_memory_footprint (mem : Memory) (questions : Json) (reply e : String)
    (fs : String → Option String) (fname : String) (chat : Int) :
    ((enrich_questions_with_explanations mem questions (Except.ok reply)).1 (-1, 0)
        = some (build_explanation_prompt questions, reply)) ∧
    (∀ k : Int × Int, k ≠ (-1, 0) →
      (enrich_questions_with_explanations mem questions (Except.ok reply)).1 k = mem k) ∧
    ((enrich_questions_with_explanations mem questions (Except.error e)).1 = mem) ∧
    ((main_quiz_flow mem fs fname (Except.error e) chat).1 = mem) := by
  refine ⟨?_, ?_, ?_, ?_⟩
  · unfold enrich_questions_with_explanations ask_gemini_qa
    cases h : extract_json reply <;> simp [h, memInsert]
  · intro k hk
    unfold enrich_questions_with_explanations ask_gemini_qa
    cases h : extract_json reply <;> simp [h, memInsert, hk]
  · exact enrich_error_mem mem questions e
  · simp only [main_quiz_flow]
    split
    · rfl
    · split
      · rfl
      · split
        · simp [enrich_error_mem]
        · split <;> simp [enrich_error_mem]

/-- C7 counterexample: the q&a renderer passes the question text raw —
for question "a.b" the poll question is "a.b", not the escaped
bold-wrapped form — and the library escaper also rewrites the backslash,
which is outside the claimed reserved set. -/
theorem C7_counterexample :
    qa_poll 0 sampleDotQ =
      Event.sendPoll 0 "a.b" ["o1", "o2", "o3", "o4"] none none none false (some false) ∧
    "a.b" ≠ "*" ++ escape_markdown "a.b" ++ "*" ∧
    escape_markdown "\\" = "\\\\" :=
  ⟨rfl, by decide, by decide⟩

/-- C7 amended: in the generate variant the markdown escape is applied
exactly once to the question text and the result wrapped in bold
markers, with the four option strings raw; the escaper prefixes every
character of the reserved set — which also contains the backslash —
with a backslash and distributes over concatenation, leaving other
characters unchanged; the q&a variant passes both question and options
raw with no escaping at all. -/
theorem C7_escape_once (chat : Int) (q : Q) (s t : String) :
    gen_quiz_poll chat q = Event.sendPoll chat
      ("*" ++ escape_markdown (q.question.getD "") ++ "*") (options_of q)
      (some "quiz") (some (correct_index q))
      (if (q.explanation.getD "") = "" then none else some (q.explanation.getD ""))
      false none ∧
    (∀ c ∈ reserved_v2, escape_markdown (String.mk [c]) = String.mk ['\\', c]) ∧
    (∀ c ∉ reserved_v2, escape_markdown (String.mk [c]) = String.mk [c]) ∧
    escape_markdown (s ++ t) = escape_markdown s ++ escape_markdown t ∧
    qa_poll chat q = Event.sendPoll chat (q.question.getD "") (options_of q)
      none none none false (some false) := by
  refine ⟨rfl, ?_, ?_, ?_, rfl⟩
  · intro c hc; simp [escape_markdown, hc]
  · intro c hc; simp [escape_markdown, hc]
  · show String.mk ((s ++ t).data.flatMap _) = _
    rw [show (s ++ t).data = s.data ++ t.data from rfl, List.flatMap_append]
    rfl

/-- Witness for C7 amended at the reserved character '.'. -/
theorem C7_escape_once_witness :
    escape_markdown (String.mk ['.']) = String.mk ['\\', '.'] :=
  (C7_escape_once 0 sampleDotQ "" "").2.1 '.' (by decide)

/-- C8 counterexample: both senders set `is_anonymous=False`, the
generate sender passes a 300-character explanation through unmodified,
and the q&a construct carries no type, no correct index and no attached
explanation even though the item has one. -/
theorem C8_counterexample :
    gen_quiz_poll 0 sampleLongQ =
      Event.sendPoll 0 (bold_question sampleLongQ) ["1", "2", "3", "4"]
        (some "quiz") (some 0) (some longExpl) false none ∧
    longExpl.length = 300 ∧
    qa_poll 0 sampleLongQ =
      Event.sendPoll 0 "Q" ["1", "2", "3", "4"] none none none false (some false) :=
  ⟨by decide, by decide, rfl⟩

/-- C8 amended: every item is sent non-anonymous (`is_anonymous=False`);
the generate variant sends a quiz-type construct with the explanation
attached unmodified whenever it is nonempty (no length truncation or
omission), while the q&a variant sends a plain poll with
`allows_multiple_answers=False` and delivers a nonempty explanation as a
separate follow-up message rather than attaching it. -/
theorem C8_poll_construction (chat : Int) (q : Q) :
    gen_quiz_poll chat q = Event.sendPoll chat (bold_question q) (options_of q)
      (some "quiz") (some (correct_index q))
      (if (q.explanation.getD "") = "" then none else some (q.explanation.getD ""))
      false none ∧
    qa_poll chat q = Event.sendPoll chat (q.question.getD "") (options_of q)
      none none none false (some false) ∧
    ((q.explanation.getD "") = "" → send_polls_from_json chat [q] = [qa_poll chat q]) ∧
    ((q.explanation.getD "") ≠ "" → send_polls_from_json chat [q] =
      [qa_poll chat q,
       Event.sendMessage chat ("📘 Explanation: " ++ q.explanation.getD "")]) := by
  refine ⟨rfl, rfl, ?_, ?_⟩ <;> intro h <;> simp [send_polls_from_json, h]

/-- Witness for C8 amended at an item with a nonempty explanation. -/
theorem C8_poll_construction_witness :
    send_polls_from_json 3 [sampleLongQ] =
      [qa_poll 3 sampleLongQ, Event.sendMessage 3 ("📘 Explanation: " ++ longExpl)] :=
  (C8_poll_construction 3 sampleLongQ).2.2.2 (by decide)

/-- Helper: a generate-variant quiz poll is not a log event. -/
lemma isLog_gen_quiz_poll (chat : Int) (q : Q) : (gen_quiz_poll chat q).isLog = false := rfl

lemma isLog_sendMessage (c : Int) (t : String) : (Event.sendMessage c t).isLog = false := rfl

lemma isLog_log (t : String) : (Event.log t).isLog = true := rfl

/-- Helper: one unfolding step of the q&a delivery loop. -/
lemma send_polls_from_json_cons (chat : Int) (q : Q) (rest : List Q) :
    send_polls_from_json chat (q :: rest) =
      qa_poll chat q ::
      (if (q.explanation.getD "") = "" then []
       else [Event.sendMessage chat ("📘 Explanation: " ++ q.explanation.getD "")]) ++
      send_polls_from_json chat rest := rfl

/-- Helper: the non-log events of the generate delivery loop are exactly
one numbered header message followed by one quiz poll per item, numbered
from the given start index. -/
lemma send_polls_aux_filter (chat : Int) (i : Nat) (quiz : List Q) :
    (send_polls_aux chat i quiz).filter (fun e => !e.isLog) =
      (List.enumFrom i quiz).flatMap (fun p =>
        [Event.sendMessage chat ("Question no. " ++ toString p.1),
         gen_quiz_poll chat p.2]) := by
  induction quiz generalizing i with
  | nil => rfl
  | cons q rest ih =>
      simp [send_polls_aux, List.enumFrom, List.filter_cons, isLog_sendMessage,
        isLog_log, isLog_gen_quiz_poll, ih]

/-- Helper: the generate delivery loop never pins and never sleeps. -/
lemma send_polls_aux_no_pin (chat : Int) (i : Nat) (quiz : List Q) :
    ∀ e ∈ send_polls_aux chat i quiz, e.isPin = false ∧ e.isSleep = false := by
  induction quiz generalizing i with
  | nil => intro e he; simp [send_polls_aux] at he
  | cons q rest ih =>
      intro e he
      simp only [send_polls_aux, List.mem_cons] at he
      rcases he with h | h | h | h | h
      · subst h; exact ⟨rfl, rfl⟩
      · subst h; exact ⟨rfl, rfl⟩
      · subst h; exact ⟨rfl, rfl⟩
      · subst h; exact ⟨rfl, rfl⟩
      · exact ih (i + 1) e h

/-- Helper: the q&a delivery loop never pins and never sleeps. -/
lemma send_polls_from_json_no_pin (chat : Int) (quiz : List Q) :
    ∀ e ∈ send_polls_from_json chat quiz, e.isPin = false ∧ e.isSleep = false := by
  induction quiz with
  | nil => intro e he; exact absurd he (List.not_mem_nil e)
  | cons q rest ih =>
      intro e he
      rw [send_polls_from_json_cons] at he
      by_cases hx : (q.explanation.getD "") = ""
      · rw [if_pos hx] at he
        rcases List.mem_cons.mp he with h | h
        · subst h; exact ⟨rfl, rfl⟩
        · exact ih e h
      · rw [if_neg hx] at he
        rcases List.mem_cons.mp he with h | h
        · subst h; exact ⟨rfl, rfl⟩
        · rcases List.mem_cons.mp h with h2 | h2
          · subst h2; exact ⟨rfl, rfl⟩
          · exact ih e h2

/-- C1 counterexample: on a one-item batch the generate delivery loop
issues no pin action and no delay at all. -/
theorem C1_counterexample :
    (¬ ∃ e ∈ send_polls 0 [sampleQ], e.isPin = true) ∧
    (¬ ∃ e ∈ send_polls 0 [sampleQ], e.isSleep = true) := by decide

/-- C1 amended: items are processed in batch order with 1-indexed
numbering — for each item i the generate loop sends the standalone
header "Question no. i" and then the quiz construct — but no message is
pinned and no inter-item delay occurs; the q&a loop likewise never pins
and never delays. -/
theorem C1_delivery_order (chat : Int) (quiz : List Q) :
    ((send_polls chat quiz).filter (fun e => !e.isLog) =
      (List.enumFrom 1 quiz).flatMap (fun p =>
        [Event.sendMessage chat ("Question no. " ++ toString p.1),
         gen_quiz_poll chat p.2])) ∧
    (∀ e ∈ send_polls chat quiz, e.isPin = false ∧ e.isSleep = false) ∧
    (∀ e ∈ send_polls_from_json chat quiz, e.isPin = false ∧ e.isSleep = false) :=
  ⟨send_polls_aux_filter chat 1 quiz, send_polls_aux_no_pin chat 1 quiz,
   send_polls_from_json_no_pin chat quiz⟩

/-- Witness for C1 amended at the one-item batch. -/
theorem C1_delivery_order_witness :
    (Event.sendMessage 0 "Question no. 1").isPin = false :=
  ((C1_delivery_order 0 [sampleQ]).2.1 (Event.sendMessage 0 "Question no. 1")
    (by decide)).1

/-- Witness for C5 amended at a key other than (-1, 0). -/
theorem C5_batch_memory_footprint_witness :
    (enrich_questions_with_explanations emptyMemory (Json.arr []) (Except.ok "[]")).1 (3, 4)
      = emptyMemory (3, 4) :=
  (C5_batch_memory_footprint emptyMemory (Json.arr []) "[]" "e" (fun _ => none) "f" 0).2.1
    (3, 4) (by decide)

/-- Helper: appending the suffix makes `pyEndsWith` hold. -/
lemma pyEndsWith_append (s p : String) : pyEndsWith (s ++ p) p = true := by
  unfold pyEndsWith
  rw [show (s ++ p).data = s.data ++ p.data from rfl]
  exact List.isSuffixOf_iff_suffix.mpr (List.suffix_append _ _)

def fsQuizOnly : String → Option String :=
  fun n => if n = "quiz.json" then some "[1]" else none

/-- C9 counterexample: the generate loader normalizes "quiz" to "quiz"
without appending ".json", so with the store present under "quiz.json"
it fails and yields the empty batch while the q&a loader succeeds on
the same input; and on failure the q&a loader returns a None sentinel,
not an empty batch. -/
theorem C9_counterexample :
    gen_normalize "quiz" = "quiz" ∧
    load_quiz fsQuizOnly "quiz" = (Json.arr [], ["❌ Failed to load quiz"]) ∧
    (load_questions_file fsQuizOnly "quiz").1.isSome = true ∧
    (load_questions_file fsQuizOnly "nope").1 = none :=
  ⟨rfl, rfl, rfl, rfl⟩

/-- C9 amended: the generate loader normalizes only by trimming and
lowercasing (never ensuring the ".json" suffix) and returns an empty
batch plus a diagnostic on any failure; the q&a loader trims,
lowercases and ensures the ".json" suffix, and on any failure returns
the None sentinel together with the normalized name and a diagnostic;
neither loader raises. -/
theorem C9_loader_normalization (fs : String → Option String) (filename content : String) :
    gen_normalize filename = pyLower (pyStrip filename) ∧
    pyEndsWith (qa_normalize filename) ".json" = true ∧
    (fs (gen_normalize filename) = none →
      load_quiz fs filename = (Json.arr [], ["❌ Failed to load quiz"])) ∧
    (fs (gen_normalize filename) = some content → json_loads content = none →
      load_quiz fs filename = (Json.arr [], ["❌ Failed to load quiz"])) ∧
    (fs (qa_normalize filename) = none →
      load_questions_file fs filename =
        (none, qa_normalize filename, ["❌ Error loading file " ++ qa_normalize filename])) ∧
    (fs (qa_normalize filename) = some content → json_loads content = none →
      load_questions_file fs filename =
        (none, qa_normalize filename, ["❌ Error loading file " ++ qa_normalize filename])) := by
  refine ⟨rfl, ?_, ?_, ?_, ?_, ?_⟩
  · by_cases h : pyEndsWith (pyLower (pyStrip filename)) ".json" = true
    · simp [qa_normalize, h]
    · simp only [qa_normalize, if_neg h]
      exact pyEndsWith_append _ _
  · intro h; unfold load_quiz; rw [h]
  · intro h hj; unfold load_quiz; rw [h]; simp [hj]
  · intro h
    simp only [load_questions_file]
    rw [h]
  · intro h hj
    simp only [load_questions_file]
    rw [h]
    simp [hj]

/-- Witness for C9 amended at a missing store. -/
theorem C9_loader_normalization_witness :
    load_quiz fsQuizOnly "nope" = (Json.arr [], ["❌ Failed to load quiz"]) :=
  (C9_loader_normalization fsQuizOnly "nope" "").2.2.1 (by decide)

lemma isPoll_replyText (t : String) : (Event.replyText t).isPoll = false := rfl

lemma isPoll_log (t : String) : (Event.log t).isPoll = false := rfl

lemma isLog_replyText (t : String) : (Event.replyText t).isLog = false := rfl

lemma isLog_writeFile (t : String) : (Event.writeFile t).isLog = false := rfl

/-- Helper: console prints contain no poll events. -/
lemma filter_isPoll_map_log (xs : List String) :
    (xs.map Event.log).filter (fun ev => ev.isPoll) = [] := by
  induction xs with
  | nil => rfl
  | cons x xs ih => simp [List.filter_cons, isPoll_log, ih]

/-- Helper: console prints are all log events. -/
lemma filter_notLog_map_log (xs : List String) :
    (xs.map Event.log).filter (fun ev => !ev.isLog) = [] := by
  induction xs with
  | nil => rfl
  | cons x xs ih => simp [List.filter_cons, isLog_log, ih]

def fsGenStore : String → Option String :=
  fun n => if n = "majorship.json" then some storeOneItem else none

/-- C4 counterexample: with a valid nonempty store and a failed
enrichment transport, the generate entry point sends no poll at all and
instead reports the enrichment failure — delivery does not proceed
unenriched. -/
theorem C4_counterexample :
    (ask_gemini_gen (Except.error "HTTP 500")).1 = none ∧
    (start_command 0 fsGenStore (Except.error "HTTP 500")).filter
      (fun ev => ev.isPoll) = [] ∧
    Event.replyText "❌ Gemini failed to enrich the quiz."
      ∈ start_command 0 fsGenStore (Except.error "HTTP 500") :=
  ⟨rfl, by decide, by decide⟩

/-- C4 amended: on transport-level failure the enrichment call returns
no enrichment and logs a diagnostic, and both entry points abort the
batch — no poll is delivered and (when the store had loaded) the
generate bot reports the failure to the user.  Enrichment failure
blocks delivery of the batch. -/
theorem C4_enrichment_failure_blocks (chat : Int) (e : String)
    (fs : String → Option String) (fname : String) (mem : Memory) :
    (ask_gemini_gen (Except.error e)).1 = none ∧
    (ask_gemini_gen (Except.error e)).2 = ["Gemini Error: " ++ e] ∧
    ((start_command chat fs (Except.error e)).filter (fun ev => ev.isPoll) = []) ∧
    ((load_quiz fs DEFAULT_FILENAME).1.truthy = true →
      Event.replyText "❌ Gemini failed to enrich the quiz."
        ∈ start_command chat fs (Except.error e)) ∧
    (extract_json ("⚠️ Gemini Error: " ++ e) = none →
      (main_quiz_flow mem fs fname (Except.error e) chat).2.filter
        (fun ev => ev.isPoll) = []) := by
  refine ⟨rfl, rfl, ?_, ?_, ?_⟩
  · simp only [start_command]
    by_cases hT : (load_quiz fs DEFAULT_FILENAME).1.truthy = true
    · simp [hT, List.filter_cons, List.filter_append, filter_isPoll_map_log,
        isPoll_replyText, isPoll_log, ask_gemini_gen]
    · simp [Bool.eq_false_iff.mpr ((Bool.not_eq_true _).mp hT ▸ hT), hT,
        List.filter_cons, List.filter_append, filter_isPoll_map_log, isPoll_replyText]
  · intro hT
    simp [start_command, hT, ask_gemini_gen]
  · intro hx
    simp only [main_quiz_flow]
    split
    · simp [List.filter_append, List.filter_cons, filter_isPoll_map_log, isPoll_log]
    · split
      · simp [List.filter_append, List.filter_cons, filter_isPoll_map_log, isPoll_log]
      · have hnone : ∀ jj : Json,
            (enrich_questions_with_explanations mem jj (Except.error e)).2.1 = none := by
          intro jj
          unfold enrich_questions_with_explanations ask_gemini_qa
          simp [hx]
        rw [hnone]
        simp [List.filter_append, List.filter_cons, filter_isPoll_map_log, isPoll_log]

/-- Witness for C4 amended at a concrete store and failure. -/
theorem C4_enrichment_failure_blocks_witness :
    Event.replyText "❌ Gemini failed to enrich the quiz."
      ∈ start_command 0 fsGenStore (Except.error "boom") :=
  (C4_enrichment_failure_blocks 0 "boom" fsGenStore "f" emptyMemory).2.2.2.1 (by decide)

def fsEmptyStore : String → Option String :=
  fun n => if n = "majorship.json" then some "[]" else none

lemma truthy_arr_nil : (Json.arr []).truthy = false := rfl

/-- C10: a store that loads and parses to an empty array is treated by
both entry points exactly like a load failure — the generate bot's
user-visible trace is the same two notices as for a missing store, the
q&a flow prints the no-questions notice — and an enrichment reply whose
extracted payload is an empty array is reported as an enrichment
failure; in every such case nothing is delivered. -/
theorem C10_empty_batch_is_failure (chat : Int) (fs : String → Option String)
    (gemini : Except String String) (mem : Memory)
    (fname content reply : String) (j : Json) :
    (fs (gen_normalize DEFAULT_FILENAME) = some content →
      json_loads content = some (Json.arr []) →
      (start_command chat fs gemini).filter (fun ev => !ev.isLog) =
        [Event.replyText "⏳ Preparing your quiz...",
         Event.replyText "❌ Failed to load quiz."]) ∧
    (fs (gen_normalize DEFAULT_FILENAME) = none →
      (start_command chat fs gemini).filter (fun ev => !ev.isLog) =
        [Event.replyText "⏳ Preparing your quiz...",
         Event.replyText "❌ Failed to load quiz."]) ∧
    (fs (gen_normalize DEFAULT_FILENAME) = some content → json_loads content = some j →
      j.truthy = true → extract_json reply = some (Json.arr []) →
      (start_command chat fs (Except.ok reply)).filter (fun ev => !ev.isLog) =
        [Event.replyText "⏳ Preparing your quiz...",
         Event.replyText "❌ Gemini failed to enrich the quiz."]) ∧
    (fs (qa_normalize fname) = some content → json_loads content = some (Json.arr []) →
      (main_quiz_flow mem fs fname gemini chat).2.filter (fun ev => !ev.isLog) = [] ∧
      Event.log "No valid questions found. Exiting."
        ∈ (main_quiz_flow mem fs fname gemini chat).2) ∧
    (fs (qa_normalize fname) = some content → json_loads content = some j →
      j.truthy = true → extract_json reply = some (Json.arr []) →
      (main_quiz_flow mem fs fname (Except.ok reply) chat).2.filter
        (fun ev => !ev.isLog) = [] ∧
      Event.log "Enrichment failed. Exiting."
        ∈ (main_quiz_flow mem fs fname (Except.ok reply) chat).2) := by
  refine ⟨?_, ?_, ?_, ?_, ?_⟩
  · intro h1 h2
    unfold start_command load_quiz
    rw [h1]
    simp [h2, Json.truthy, List.filter_cons, isLog_replyText]
  · intro h1
    unfold start_command load_quiz
    rw [h1]
    simp [Json.truthy, List.filter_cons, isLog_replyText, filter_notLog_map_log,
      isLog_log]
  · intro h1 h2 hT hx
    unfold start_command load_quiz ask_gemini_gen
    rw [h1]
    simp [h2, hT, hx, truthy_arr_nil, List.filter_cons, List.filter_append,
      isLog_replyText, filter_notLog_map_log]
  · intro h1 h2
    simp only [main_quiz_flow, load_questions_file]
    rw [h1]
    simp [h2, Json.truthy, List.filter_cons, List.filter_append,
      filter_notLog_map_log, isLog_log]
  · intro h1 h2 hT hx
    simp only [main_quiz_flow, load_questions_file]
    rw [h1]
    have hE : (enrich_questions_with_explanations mem j (Except.ok reply)).2.1
        = some (Json.arr []) := by
      unfold enrich_questions_with_explanations ask_gemini_qa
      simp [hx]
    simp [h2, hT, hE, truthy_arr_nil, List.filter_cons, List.filter_append,
      filter_notLog_map_log, isLog_log]

/-- Witness for C10 at a store holding the empty array. -/
theorem C10_empty_batch_is_failure_witness :
    (start_command 0 fsEmptyStore (Except.error "x")).filter (fun ev => !ev.isLog) =
      [Event.replyText "⏳ Preparing your quiz...",
       Event.replyText "❌ Failed to load quiz."] :=
  (C10_empty_batch_is_failure 0 fsEmptyStore (Except.error "x") emptyMemory
    "f" "[]" "r" Json.null).1 rfl rfl

/-- Helper: `findIdx` misses exactly the absent characters. -/
lemma findIdx_eq_none_iff (c : Char) (l : List Char) : findIdx c l = none ↔ c ∉ l := by
  induction l with
  | nil => simp [findIdx]
  | cons x xs ih =>
      by_cases hx : x = c
      · subst hx
        simp [findIdx]
      · simp only [findIdx, if_neg hx, List.mem_cons]
        rw [Option.map_eq_none', ih]
        constructor
        · intro hn hc
          rcases hc with hc | hc
          · exact hx hc.symm
          · exact hn hc
        · intro hn hc
          exact hn (Or.inr hc)

/-- Helper: a found index is inside the list. -/
lemma findIdx_lt_length (c : Char) : ∀ (l : List Char) (i : Nat),
    findIdx c l = some i → i < l.length := by
  intro l
  induction l with
  | nil => intro i h; simp [findIdx] at h
  | cons x xs ih =>
      intro i h
      simp only [findIdx] at h
      by_cases hx : x = c
      · rw [if_pos hx] at h
        cases h
        simp
      · rw [if_neg hx] at h
        rcases Option.map_eq_some'.mp h with ⟨i2, h2, rfl⟩
        simpa using Nat.succ_lt_succ (ih i2 h2)

/-- Helper: index 0 means the list starts with the character. -/
lemma findIdx_zero_head (c : Char) (l : List Char) (h : findIdx c l = some 0) :
    ∃ t, l = c :: t := by
  cases l with
  | nil => simp [findIdx] at h
  | cons x xs =>
      simp only [findIdx] at h
      by_cases hx : x = c
      · subst hx; exact ⟨xs, rfl⟩
      · rw [if_neg hx] at h
        rcases Option.map_eq_some'.mp h with ⟨i2, _, hii⟩
        omega

/-- Helper: a slice whose upper bound is at most its lower bound is empty. -/
lemma slice_empty_of_le (l : List Char) (aN bN : Nat) (h : bN ≤ aN) :
    (l.take bN).drop aN = [] := by
  apply List.drop_eq_nil_of_le
  simp [List.length_take]
  omega

/-- Helper: dropping all but the last element leaves the head of the
reversed list. -/
lemma drop_pred_of_reverse_head (l t : List Char) (c : Char) (h : l.reverse = c :: t) :
    l.drop (l.length - 1) = [c] := by
  have hl : l = t.reverse ++ [c] := by
    have h2 := congrArg List.reverse h
    simpa using h2
  subst hl
  have hlen : (t.reverse ++ [c]).length - 1 = t.reverse.length := by
    simp
  rw [hlen]
  exact List.drop_left _ _

lemma json_loads_empty_str : json_loads (String.mk []) = none := rfl

lemma json_loads_rbracket_str : json_loads (String.mk [']']) = none := rfl

lemma sliceLo_nonneg (s : String) (a : Int) : 0 ≤ sliceLo s a := by
  unfold sliceLo
  by_cases h : a < 0
  · rw [if_pos h]; exact le_max_right _ _
  · rw [if_neg h]
    exact le_min (not_lt.mp h) (Int.natCast_nonneg _)

lemma sliceHi_nonneg (s : String) (b : Int) : 0 ≤ sliceHi s b := by
  unfold sliceHi
  by_cases h : b < 0
  · rw [if_pos h]; exact le_max_right _ _
  · rw [if_neg h]
    exact le_min (not_lt.mp h) (Int.natCast_nonneg _)

/-- Helper: a slice whose adjusted upper bound does not exceed its
adjusted lower bound is the empty string (Python yields `""`). -/
lemma pySlice_empty (s : String) (a b : Int) (h : sliceHi s b ≤ sliceLo s a) :
    pySlice s a b = String.mk [] := by
  unfold pySlice
  apply congrArg String.mk
  apply slice_empty_of_le
  have h2 := sliceHi_nonneg s b
  omega

lemma pyRFind_ge_neg_one (s : String) (c : Char) : -1 ≤ pyRFind s c := by
  unfold pyRFind
  cases hF : findIdx c s.data.reverse with
  | none => simp only [hF]; exact le_refl _
  | some i =>
      simp only [hF]
      have h2 := findIdx_lt_length c s.data.reverse i hF
      rw [List.length_reverse] at h2
      omega

lemma pyFind_lt_length (s : String) (c : Char) (h : 0 ≤ pyFind s c) :
    pyFind s c < (s.data.length : Int) := by
  unfold pyFind at h ⊢
  cases hF : findIdx c s.data with
  | none => simp only [hF] at h; norm_num at h
  | some i =>
      simp only [hF]
      exact_mod_cast findIdx_lt_length c s.data i hF

/-- Helper: a reply without `[` extracts to nothing: the Python slice
`reply[-1 : rfind+1]` is either empty or the single closing bracket,
and neither parses. -/
lemma extract_json_no_lbracket (reply : String) (h : '[' ∉ reply.data) :
    extract_json reply = none := by
  have hF : findIdx '[' reply.data = none := (findIdx_eq_none_iff _ _).mpr h
  unfold extract_json extract_slice pyFind pyRFind
  simp only [hF]
  cases hR : findIdx ']' reply.data.reverse with
  | none =>
      simp only [hR]
      rw [pySlice_empty]
      · exact json_loads_empty_str
      · have h0 : sliceHi reply (-1 + 1) = 0 := by
          unfold sliceHi
          rw [if_neg (by norm_num)]
          rw [show ((-1 : Int) + 1) = 0 by norm_num]
          exact min_eq_left (Int.natCast_nonneg _)
        rw [h0]
        exact sliceLo_nonneg reply (-1)
  | some i =>
      simp only [hR]
      have hi : i < reply.data.length := by
        have h2 := findIdx_lt_length ']' reply.data.reverse i hR
        rwa [List.length_reverse] at h2
      by_cases hzero : i = 0
      · rcases findIdx_zero_head ']' reply.data.reverse (hzero ▸ hR) with ⟨t, ht⟩
        have hslice : pySlice reply (-1) ((reply.data.length : Int) - 1 - (i : Int) + 1)
            = String.mk [']'] := by
          unfold pySlice
          apply congrArg String.mk
          have hLo : (sliceLo reply (-1)).toNat = reply.data.length - 1 := by
            unfold sliceLo
            rw [if_pos (by norm_num), max_eq_left (by omega)]
            omega
          have hHi : (sliceHi reply ((reply.data.length : Int) - 1 - (i : Int) + 1)).toNat
              = reply.data.length := by
            unfold sliceHi
            rw [if_neg (by omega), show ((reply.data.length : Int) - 1 - (i : Int) + 1)
                = (reply.data.length : Int) by omega, min_self]
            omega
          rw [hLo, hHi, List.take_length]
          exact drop_pred_of_reverse_head _ t ']' ht
        rw [hslice]
        exact json_loads_rbracket_str
      · rw [pySlice_empty]
        · exact json_loads_empty_str
        · have hLo : sliceLo reply (-1) = (reply.data.length : Int) - 1 := by
            unfold sliceLo
            rw [if_pos (by norm_num), max_eq_left (by omega)]
            omega
          have hHi : sliceHi reply ((reply.data.length : Int) - 1 - (i : Int) + 1)
              = (reply.data.length : Int) - (i : Int) := by
            unfold sliceHi
            rw [if_neg (by omega), min_eq_left (by omega)]
            omega
          rw [hLo, hHi]
          omega

/-- Helper: when the last `]` sits before the first `[`, the slice is
empty and extraction yields nothing. -/
lemma extract_json_no_rbracket_after (reply : String)
    (hf : 0 ≤ pyFind reply '[') (hr : pyRFind reply ']' + 1 ≤ pyFind reply '[') :
    extract_json reply = none := by
  unfold extract_json extract_slice
  rw [pySlice_empty]
  · exact json_loads_empty_str
  · have h1 := pyFind_lt_length reply '[' hf
    have h2 := pyRFind_ge_neg_one reply ']'
    have hLo : sliceLo reply (pyFind reply '[') = pyFind reply '[' := by
      unfold sliceLo
      rw [if_neg (by omega), min_eq_left (by omega)]
    have hHi : sliceHi reply (pyRFind reply ']' + 1) ≤ pyRFind reply ']' + 1 := by
      unfold sliceHi
      rw [if_neg (by omega)]
      exact min_le_left _ _
    rw [hLo]
    omega

/-- C3: the enrichment-reply extraction slices from the first `[` to one
past the last `]` and parses the result: the spec's concrete example
parses to `[{"a":1}]`; a reply with no `[`, or with no `]` after the
first `[`, or whose substring fails to parse, yields the no-enrichment
value `none` rather than an exception. -/
theorem C3_reply_extraction :
    extract_json "noise [ \x7b\"a\":1\x7d ] trailer"
      = some (Json.arr [Json.obj [("a", Json.num 1)]]) ∧
    (∀ reply : String, '[' ∉ reply.data → extract_json reply = none) ∧
    (∀ reply : String, 0 ≤ pyFind reply '[' →
      pyRFind reply ']' + 1 ≤ pyFind reply '[' → extract_json reply = none) ∧
    (∀ reply : String, json_loads (extract_slice reply) = none →
      extract_json reply = none) :=
  ⟨rfl, extract_json_no_lbracket, extract_json_no_rbracket_after, fun _ h => h⟩

/-- Witness for C3 at a bracketless reply. -/
theorem C3_reply_extraction_witness : extract_json "no enrichment here" = none :=
  C3_reply_extraction.2.1 "no enrichment here" (by decide)
